import Mathlib

/-!
Verification of the ActivityPub handle-resolution pipeline of the
`activitypub-learning-setup` repository.

The pipeline under study lives in `01-webfinger-discovery.js` (`discoverActor`,
`runWebFingerTests`) and in the actor-profile script (`fetchActor`,
`fetchActorOutbox`, `analyzeActorComplete`, `runActorTests`).  The JavaScript
code performs HTTP GET requests via axios; here the network is an explicit
oracle (a function from requests to `Except`-valued responses) and every
operation additionally returns the list of HTTP requests it issued, so that
properties such as "issues no network request" and "issues exactly one GET"
become statements about that list.

JavaScript truthiness of strings (`undefined`, `null` and `""` are falsy) is
modelled by `Option String` together with an explicit emptiness test where the
source tests truthiness of a string value.
-/

namespace ActivityPub

/-- The fixed client identification string sent on every request
(`User-Agent` header in all axios calls of the repository). -/
def userAgentValue : String := "ActivityPub-Learning-Setup/1.0"

/-- The link media type that `discoverActor` matches when extracting the
actor URL (`link.type === 'application/activity+json'`). -/
def activityJsonType : String := "application/activity+json"

/-- An HTTP GET request as issued by axios in the scripts: the URL, the header
list passed in the options object, and the `timeout` option in milliseconds. -/
structure HttpRequest where
  url : String
  headers : List (String × String)
  timeoutMs : Nat

deriving instance DecidableEq for HttpRequest

deriving instance Repr for HttpRequest

/-- The WebFinger request built by `discoverActor`:
url = backtick-template `https://DOMAIN/.well-known/webfinger?resource=acct:HANDLE`
with headers `Accept: application/jrd+json`, the fixed `User-Agent`, and
`timeout: 10000`.  Note the URL interpolates the raw `domain` and the raw
original `handle` with no percent-encoding. -/
def webfingerRequest (domain handle : String) : HttpRequest :=
  { url := "https://" ++ domain ++ "/.well-known/webfinger?resource=acct:" ++ handle
    headers := [("Accept", "application/jrd+json"), ("User-Agent", userAgentValue)]
    timeoutMs := 10000 }

/-- The request built by `fetchActor` for a direct actor URL:
headers `Accept: application/activity+json, application/ld+json`, the fixed
`User-Agent`, and `timeout: 10000`. -/
def actorRequest (actorUrl : String) : HttpRequest :=
  { url := actorUrl
    headers := [("Accept", "application/activity+json, application/ld+json"),
                ("User-Agent", userAgentValue)]
    timeoutMs := 10000 }

/-- The request built by `fetchActorOutbox`, both for the outbox collection URL
and for the `first` page URL: same headers and timeout as `fetchActor`. -/
def outboxRequest (url : String) : HttpRequest :=
  { url := url
    headers := [("Accept", "application/activity+json, application/ld+json"),
                ("User-Agent", userAgentValue)]
    timeoutMs := 10000 }

/-- One entry of the `links` array of a WebFinger JSON Resource Descriptor.
Every field is duck-typed in the source, hence optional here. -/
structure Link where
  rel : Option String
  type : Option String
  href : Option String

deriving instance DecidableEq for Link

deriving instance Repr for Link

/-- A WebFinger response document (`response.data` in `discoverActor`);
the source accesses `subject` (implicitly, for display) and `links?.find`. -/
structure WebFingerData where
  subject : Option String
  links : Option (List Link)

deriving instance DecidableEq for WebFingerData

deriving instance Repr for WebFingerData

/-- The value returned by `discoverActor` on success:
`return { handle, webfingerData: response.data, actorUrl }`. -/
structure DiscoveryResult where
  handle : String
  webfingerData : WebFingerData
  actorUrl : Option String

deriving instance DecidableEq for DiscoveryResult

deriving instance Repr for DiscoveryResult

/-- Errors thrown by `discoverActor`: the explicit
`throw new Error('Invalid handle format. Use: username@domain.com')`, and
rethrown axios transport errors (network failure, timeout, non-2xx). -/
inductive DiscoverError where
  | invalidHandleFormat
  | discoveryFailed (cause : String)

deriving instance DecidableEq for DiscoverError

deriving instance Repr for DiscoverError

/-- JavaScript `String.prototype.split` with a single-character separator,
on the character list of the string: `"".split(c)` is `[""]`,
`"a@@b".split("@")` is `["a","","b"]`, separators at the ends produce empty
components. -/
def splitChar (c : Char) : List Char → List (List Char)
  | [] => [[]]
  | x :: xs =>
    if x = c then
      [] :: splitChar c xs
    else
      match splitChar c xs with
      | [] => [[x]]
      | y :: ys => (x :: y) :: ys

/-- Handle parsing in `discoverActor`:
`const [username, domain] = handle.split('@'); if (!username || !domain) throw`.
Array destructuring takes the first two components of the split (missing
components are `undefined`); `!s` is true exactly for `undefined` and the
empty string, both modelled by the empty component here. -/
def parseHandle (handle : String) : Option (String × String) :=
  let parts := splitChar '@' handle.data
  let username := parts.getD 0 []
  let domain := parts.getD 1 []
  if username.isEmpty ∨ domain.isEmpty then
    none
  else
    some (String.mk username, String.mk domain)

/-- Actor-URL extraction in `discoverActor`:
`response.data.links?.find(link => link.type === 'application/activity+json')?.href`. -/
def extractActorUrl (data : WebFingerData) : Option String :=
  (data.links.bind (fun ls => ls.find? (fun l => l.type = some activityJsonType))).bind
    Link.href

/-- `discoverActor(handle)`: validates the handle, builds the WebFinger URL from
the second split component and the raw original handle, performs one GET, and
on success returns the handle, the raw document and the extracted actor URL.
The second component of the result is the list of HTTP requests issued. -/
def discoverActor (net : HttpRequest → Except String WebFingerData) (handle : String) :
    Except DiscoverError DiscoveryResult × List HttpRequest :=
  match parseHandle handle with
  | none => (Except.error DiscoverError.invalidHandleFormat, [])
  | some (_username, domain) =>
    let req := webfingerRequest domain handle
    match net req with
    | Except.error e => (Except.error (DiscoverError.discoveryFailed e), [req])
    | Except.ok data =>
      (Except.ok { handle := handle, webfingerData := data, actorUrl := extractActorUrl data },
       [req])

/-- An ActivityPub actor document, duck-typed in the source; only the fields
the pipeline reads are modelled, all optional as in the JSON. -/
structure Actor where
  id : Option String
  type : Option String
  preferredUsername : Option String
  inbox : Option String
  outbox : Option String

deriving instance DecidableEq for Actor

deriving instance Repr for Actor

/-- `fetchActor(actorUrl)`: one GET with the ActivityPub accept header; the
response document is returned unmodified, transport errors are rethrown. -/
def fetchActor (net : HttpRequest → Except String Actor) (actorUrl : String) :
    Except String Actor × List HttpRequest :=
  let req := actorRequest actorUrl
  (net req, [req])

/-- An activity from an outbox page; only the fields displayed by the source. -/
structure Activity where
  type : Option String
  published : Option String

deriving instance DecidableEq for Activity

deriving instance Repr for Activity

/-- The first page of an outbox (`firstPageResponse.data`): the source reads
`orderedItems` and `items`. -/
structure PageDoc where
  orderedItems : Option (List Activity)
  items : Option (List Activity)

deriving instance DecidableEq for PageDoc

deriving instance Repr for PageDoc

/-- The outbox collection document: the source reads `totalItems` and `first`. -/
structure OutboxDoc where
  totalItems : Option Nat
  first : Option String

deriving instance DecidableEq for OutboxDoc

deriving instance Repr for OutboxDoc

/-- Observable outcome of `fetchActorOutbox`: the activities displayed (the
JavaScript function returns `undefined`; its observable output is the
truncated activity list it iterates over), the warnings logged, and the HTTP
requests issued.  The function itself never throws. -/
structure OutboxResult where
  activities : List Activity
  warnings : List String
  requests : List HttpRequest

deriving instance DecidableEq for OutboxResult

deriving instance Repr for OutboxResult

/-- Activity extraction from the first page:
`firstPageResponse.data.orderedItems || firstPageResponse.data.items || []`.
A present-but-empty array is truthy in JavaScript, so a present empty
`orderedItems` wins over `items`. -/
def extractActivities (page : PageDoc) : List Activity :=
  match page.orderedItems with
  | some xs => xs
  | none => page.items.getD []

/-- `fetchActorOutbox(outboxUrl, limit)`: no-op with a warning when the URL is
falsy; otherwise fetches the collection, then — only when a truthy `first`
page link exposes itself — fetches that page and displays
`activities.slice(0, limit)`.  Both fetch failures are caught and logged; the
function never propagates an error. -/
def fetchActorOutbox (netOutbox : HttpRequest → Except String OutboxDoc)
    (netPage : HttpRequest → Except String PageDoc)
    (outboxUrl : Option String) (limit : Nat) : OutboxResult :=
  match outboxUrl with
  | none => { activities := [], warnings := ["No outbox URL available"], requests := [] }
  | some url =>
    if url = "" then
      { activities := [], warnings := ["No outbox URL available"], requests := [] }
    else
      let req := outboxRequest url
      match netOutbox req with
      | Except.error e =>
        { activities := [], warnings := ["Failed to fetch outbox: " ++ e], requests := [req] }
      | Except.ok outbox =>
        match outbox.first with
        | none => { activities := [], warnings := [], requests := [req] }
        | some firstUrl =>
          if firstUrl = "" then
            { activities := [], warnings := [], requests := [req] }
          else
            let pageReq := outboxRequest firstUrl
            match netPage pageReq with
            | Except.error _ =>
              { activities := [], warnings := ["Could not fetch outbox activities"],
                requests := [req, pageReq] }
            | Except.ok page =>
              { activities := (extractActivities page).take limit, warnings := [],
                requests := [req, pageReq] }

/-- The four network oracles of the full pipeline, one per document shape. -/
structure Network where
  webfinger : HttpRequest → Except String WebFingerData
  actor : HttpRequest → Except String Actor
  outbox : HttpRequest → Except String OutboxDoc
  page : HttpRequest → Except String PageDoc

/-- Outcome of `analyzeActorComplete`: the outer try/catch turns every thrown
error into a logged message and a normal return (`failed`), a missing actor
URL returns early (`noActorUrl`), and otherwise the chain completes with the
fetched actor and the displayed activities. -/
inductive AnalysisOutcome where
  | failed (msg : String)
  | noActorUrl
  | completed (actor : Actor) (activities : List Activity)

deriving instance DecidableEq for AnalysisOutcome

deriving instance Repr for AnalysisOutcome

/-- The message attached to a `DiscoverError` when it reaches a catch block. -/
def discoverErrorMessage : DiscoverError → String
  | DiscoverError.invalidHandleFormat => "Invalid handle format. Use: username@domain.com"
  | DiscoverError.discoveryFailed cause => cause

/-- `analyzeActorComplete(handle)`: discovery, early return when
`!discovery.actorUrl`, actor fetch, then `fetchActorOutbox(actor.outbox, 3)`;
every thrown error is caught by the outer try/catch and logged.  Also returns
the concatenated request trace of all stages. -/
def analyzeActorComplete (net : Network) (handle : String) :
    AnalysisOutcome × List HttpRequest :=
  match discoverActor net.webfinger handle with
  | (Except.error e, reqs) => (AnalysisOutcome.failed (discoverErrorMessage e), reqs)
  | (Except.ok discovery, reqs) =>
    match discovery.actorUrl with
    | none => (AnalysisOutcome.noActorUrl, reqs)
    | some actorUrl =>
      if actorUrl = "" then
        (AnalysisOutcome.noActorUrl, reqs)
      else
        match fetchActor net.actor actorUrl with
        | (Except.error e, reqs2) => (AnalysisOutcome.failed e, reqs ++ reqs2)
        | (Except.ok actor, reqs2) =>
          let ob := fetchActorOutbox net.outbox net.page actor.outbox 3
          (AnalysisOutcome.completed actor ob.activities, reqs ++ reqs2 ++ ob.requests)

/-- The test loop of `runWebFingerTests`: `for (const account of testAccounts)`
with a try/catch around each `discoverActor` call, so every account yields an
outcome and the loop always proceeds to the next account. -/
def runWebFingerTests (net : HttpRequest → Except String WebFingerData) :
    List String → List (Except DiscoverError DiscoveryResult)
  | [] => []
  | account :: rest => (discoverActor net account).1 :: runWebFingerTests net rest

/-- The test loop of `runActorTests`: `analyzeActorComplete` never throws (its
body is wrapped in try/catch), so the loop processes every account. -/
def runActorTests (net : Network) : List String → List AnalysisOutcome
  | [] => []
  | account :: rest => (analyzeActorComplete net account).1 :: runActorTests net rest

/-! ### Concrete fixtures used by witnesses and counterexamples -/

/-- A WebFinger document with no links. -/
def emptyWebFinger : WebFingerData := { subject := none, links := none }

/-- A network oracle whose WebFinger endpoint always answers with a fixed
document. -/
def constWebFingerNet (d : WebFingerData) : HttpRequest → Except String WebFingerData :=
  fun _ => Except.ok d

/-! ### Helper lemmas about `splitChar` -/

theorem splitChar_ne_nil (c : Char) (l : List Char) : splitChar c l ≠ [] := by
  cases l with
  | nil => simp [splitChar]
  | cons x xs =>
    by_cases hx : x = c
    · simp [splitChar, hx]
    · simp only [splitChar, if_neg hx]
      cases splitChar c xs <;> simp

theorem splitChar_no_sep (c : Char) (l : List Char) (h : c ∉ l) : splitChar c l = [l] := by
  induction l with
  | nil => rfl
  | cons x xs ih =>
    have hx : ¬ x = c := fun hxc => h (by simp [hxc])
    have hxs : c ∉ xs := fun hm => h (List.mem_cons_of_mem x hm)
    simp only [splitChar, if_neg hx, ih hxs]

theorem splitChar_sep_append (c : Char) (u r : List Char) (hu : c ∉ u) :
    splitChar c (u ++ c :: r) = u :: splitChar c r := by
  induction u with
  | nil => simp [splitChar]
  | cons x xs ih =>
    have hx : ¬ x = c := fun hxc => hu (by simp [hxc])
    have hxs : c ∉ xs := fun hm => hu (List.mem_cons_of_mem x hm)
    simp only [List.cons_append, splitChar, if_neg hx, List.append_eq, ih hxs]

/-- `List.find?` skips a block of elements on which the predicate fails. -/
theorem find_skip_none {α : Type} (p : α → Bool) (pre rest : List α)
    (h : ∀ x ∈ pre, ¬ p x = true) : List.find? p (pre ++ rest) = List.find? p rest := by
  induction pre with
  | nil => rfl
  | cons x xs ih =>
    have hx : ¬ p x = true := h x (List.mem_cons_self x xs)
    have hxs : ∀ y ∈ xs, ¬ p y = true := fun y hy => h y (List.mem_cons_of_mem x hy)
    simp only [List.cons_append, List.find?]
    cases hpx : p x with
    | true => exact absurd hpx hx
    | false => exact ih hxs

/-! ### Handle validation (claims C1, C10) -/

/-- Characterization of `parseHandle` failure: validation fails exactly when
the first or the second component of the split on `@` is empty or missing
(array destructuring reads only the first two components). -/
theorem parseHandle_eq_none_iff (handle : String) :
    parseHandle handle = none
      ↔ ((splitChar '@' handle.data).getD 0 [] = []
          ∨ (splitChar '@' handle.data).getD 1 [] = []) := by
  unfold parseHandle
  by_cases h : ((splitChar '@' handle.data).getD 0 []).isEmpty
      ∨ ((splitChar '@' handle.data).getD 1 []).isEmpty
  · rw [if_pos h]
    simpa [List.isEmpty_iff] using h
  · rw [if_neg h]
    simp only [List.isEmpty_iff] at h
    simpa using h

/-- C1 counterexample: the handle `user@a@b` contains two `@` characters, yet
`discoverActor` does not fail validation: destructuring takes the first two
split components, so the request goes to domain `a` and the call succeeds,
issuing one network request. -/
theorem discoverActor_multiAt_counterexample :
    (discoverActor (constWebFingerNet emptyWebFinger) "user@a@b").1
        = Except.ok { handle := "user@a@b", webfingerData := emptyWebFinger, actorUrl := none }
      ∧ (discoverActor (constWebFingerNet emptyWebFinger) "user@a@b").2
        = [webfingerRequest "a" "user@a@b"] :=
  ⟨rfl, rfl⟩

/-- C1 (amended): `discoverActor` fails with `InvalidHandleFormat` and issues
no network request exactly when the first or second component of the split on
`@` is empty (missing `@`, empty username, or empty part between the first and
second `@`); a handle with more than one `@` whose first two components are
non-empty is not rejected. -/
theorem discoverActor_invalid_handle_iff
    (net : HttpRequest → Except String WebFingerData) (handle : String) :
    discoverActor net handle = (Except.error DiscoverError.invalidHandleFormat, [])
      ↔ ((splitChar '@' handle.data).getD 0 [] = []
          ∨ (splitChar '@' handle.data).getD 1 [] = []) := by
  rw [← parseHandle_eq_none_iff]
  unfold discoverActor
  cases hp : parseHandle handle with
  | none => simp
  | some ud =>
    obtain ⟨u, d⟩ := ud
    dsimp only
    cases net (webfingerRequest d handle) <;> simp

/-- Witness for C1 (amended) at the concrete handle `bob` (no `@`): validation
fails and no request is issued. -/
theorem discoverActor_invalid_handle_iff_witness :
    discoverActor (constWebFingerNet emptyWebFinger) "bob"
      = (Except.error DiscoverError.invalidHandleFormat, []) :=
  (discoverActor_invalid_handle_iff (constWebFingerNet emptyWebFinger) "bob").mpr (by decide)

/-! ### URL construction (claim C2) -/

/-- C2 counterexample: for the handle `a b@d` (a space in the username) the
issued URL embeds the raw handle with the space unencoded, so it differs from
the percent-encoded URL the claim requires. -/
theorem discoverActor_unencoded_url_counterexample :
    (discoverActor (constWebFingerNet emptyWebFinger) "a b@d").2
        = [webfingerRequest "d" "a b@d"]
      ∧ (webfingerRequest "d" "a b@d").url
          = "https://d/.well-known/webfinger?resource=acct:a b@d"
      ∧ "https://d/.well-known/webfinger?resource=acct:a b@d"
          ≠ "https://d/.well-known/webfinger?resource=acct:a%20b@d" :=
  ⟨rfl, rfl, by decide⟩

/-- C2 (amended): for every handle accepted by validation, `discoverActor`
issues exactly one WebFinger GET, whose URL is the byte-for-byte concatenation
`https://` ++ domain ++ `/.well-known/webfinger?resource=acct:` ++ handle with
the raw second split component as domain and the raw original handle, with no
percent-encoding of special characters. -/
theorem discoverActor_single_request_raw_url
    (net : HttpRequest → Except String WebFingerData) (handle username domain : String)
    (h : parseHandle handle = some (username, domain)) :
    (discoverActor net handle).2 = [webfingerRequest domain handle]
      ∧ (webfingerRequest domain handle).url
          = "https://" ++ domain ++ "/.well-known/webfinger?resource=acct:" ++ handle := by
  refine ⟨?_, rfl⟩
  unfold discoverActor
  rw [h]
  dsimp only
  cases net (webfingerRequest domain handle) <;> rfl

/-- Witness for C2 (amended) at the concrete handle `alice@example.org`. -/
theorem discoverActor_single_request_raw_url_witness :
    parseHandle "alice@example.org" = some ("alice", "example.org")
      ∧ (discoverActor (constWebFingerNet emptyWebFinger) "alice@example.org").2
          = [webfingerRequest "example.org" "alice@example.org"] :=
  ⟨by decide, (discoverActor_single_request_raw_url (constWebFingerNet emptyWebFinger)
      "alice@example.org" "alice" "example.org" (by decide)).1⟩

/-! ### Actor URL extraction (claims C3, C4) -/

/-- A profile-page link, not an ActivityPub link. -/
def htmlLink : Link :=
  { rel := some "http://webfinger.net/rel/profile-page", type := some "text/html",
    href := some "https://example.org/@alice" }

/-- A self link with the ActivityPub content type. -/
def actLink : Link :=
  { rel := some "self", type := some "application/activity+json",
    href := some "https://example.org/users/alice" }

/-- A second link with the ActivityPub content type, to exercise
first-match-wins. -/
def actLinkLater : Link :=
  { rel := some "self", type := some "application/activity+json",
    href := some "https://example.org/users/alice-2" }

/-- A WebFinger document with a non-matching link first, then two matching
links. -/
def sampleWebFinger : WebFingerData :=
  { subject := some "acct:alice@example.org", links := some [htmlLink, actLink, actLinkLater] }

/-- C3: on a successful WebFinger fetch, the result carries the original
handle, the raw document and the extracted actor URL; the extraction returns
the `href` of the first link typed exactly `application/activity+json` (first
match wins even when a later link also matches), and is `none` when no link
matches or the document has no `links`, without this being an error. -/
theorem discoverActor_actorUrl_extraction
    (net : HttpRequest → Except String WebFingerData) (handle username domain : String)
    (doc : WebFingerData)
    (hparse : parseHandle handle = some (username, domain))
    (hnet : net (webfingerRequest domain handle) = Except.ok doc) :
    (discoverActor net handle).1
        = Except.ok { handle := handle, webfingerData := doc, actorUrl := extractActorUrl doc }
      ∧ (∀ pre l post, doc.links = some (pre ++ l :: post) →
          (∀ x ∈ pre, x.type ≠ some activityJsonType) →
          l.type = some activityJsonType → extractActorUrl doc = l.href)
      ∧ (∀ ls, doc.links = some ls →
          (∀ x ∈ ls, x.type ≠ some activityJsonType) → extractActorUrl doc = none)
      ∧ (doc.links = none → extractActorUrl doc = none) := by
  refine ⟨?_, ?_, ?_, ?_⟩
  · unfold discoverActor
    rw [hparse]
    dsimp only
    rw [hnet]
  · intro pre l post hlinks hpre hl
    unfold extractActorUrl
    rw [hlinks]
    have hskip : List.find? (fun x => decide (x.type = some activityJsonType)) (pre ++ l :: post)
        = List.find? (fun x => decide (x.type = some activityJsonType)) (l :: post) := by
      refine find_skip_none _ pre _ ?_
      intro x hx
      simp only [decide_eq_true_eq]
      exact hpre x hx
    simp [Option.bind, hskip, List.find?, hl]
  · intro ls hlinks hnone
    unfold extractActorUrl
    rw [hlinks]
    have hfind : List.find? (fun x => decide (x.type = some activityJsonType)) ls = none := by
      rw [List.find?_eq_none]
      intro x hx
      simp only [decide_eq_true_eq]
      exact hnone x hx
    simp [Option.bind, hfind]
  · intro hlinks
    simp [extractActorUrl, hlinks]

/-- Witness for C3 on a concrete document: the non-matching `text/html` link
is skipped, the first matching link wins over the later matching one, and the
result structure carries handle, document, and that href. -/
theorem discoverActor_actorUrl_extraction_witness :
    (discoverActor (constWebFingerNet sampleWebFinger) "alice@example.org").1
        = Except.ok { handle := "alice@example.org", webfingerData := sampleWebFinger,
                      actorUrl := extractActorUrl sampleWebFinger }
      ∧ extractActorUrl sampleWebFinger = some "https://example.org/users/alice" := by
  have h := discoverActor_actorUrl_extraction (constWebFingerNet sampleWebFinger)
    "alice@example.org" "alice" "example.org" sampleWebFinger (by decide) rfl
  have hpre : ∀ x ∈ [htmlLink], x.type ≠ some activityJsonType := by decide
  have h2 := h.2.1 [htmlLink] actLink [actLinkLater] rfl hpre rfl
  exact ⟨h.1, h2.trans rfl⟩

/-- The self link used by the C4 counterexample: ActivityPub media type
`application/ld+json`. -/
def ldLink : Link :=
  { rel := some "self", type := some "application/ld+json",
    href := some "https://example.org/users/alice" }

/-- A WebFinger document whose only link is typed `application/ld+json`. -/
def ldOnlyWebFinger : WebFingerData :=
  { subject := some "acct:alice@example.org", links := some [ldLink] }

/-- C4 counterexample: a document whose only link is typed
`application/ld+json` with an href yields no actorUrl — the code matches only
`application/activity+json`, contrary to the claim that `application/ld+json`
links are also selected. -/
theorem extractActorUrl_ldJson_counterexample :
    ldOnlyWebFinger.links = some [ldLink]
      ∧ ldLink.type = some "application/ld+json"
      ∧ ldLink.href = some "https://example.org/users/alice"
      ∧ extractActorUrl ldOnlyWebFinger = none :=
  ⟨rfl, rfl, rfl, by decide⟩

/-- C4 (amended): the actor link selected is the first link whose type equals
exactly `application/activity+json`; no other media type is matched, so a
document none of whose links carries that exact type — in particular one
whose only link is typed `application/ld+json` — yields no actorUrl. -/
theorem extractActorUrl_requires_activityJson (d : WebFingerData) (ls : List Link)
    (hlinks : d.links = some ls) (hno : ∀ x ∈ ls, x.type ≠ some activityJsonType) :
    extractActorUrl d = none := by
  unfold extractActorUrl
  rw [hlinks]
  have hfind : List.find? (fun x => decide (x.type = some activityJsonType)) ls = none := by
    rw [List.find?_eq_none]
    intro x hx
    simp only [decide_eq_true_eq]
    exact hno x hx
  simp [Option.bind, hfind]

/-- Witness for C4 (amended) on the `application/ld+json`-only document. -/
theorem extractActorUrl_requires_activityJson_witness :
    extractActorUrl ldOnlyWebFinger = none :=
  extractActorUrl_requires_activityJson ldOnlyWebFinger [ldLink] rfl (by decide)

/-! ### Outbox fetch path equations (helpers for C6, C7) -/

theorem fetchActorOutbox_success_eq
    (netOutbox : HttpRequest → Except String OutboxDoc)
    (netPage : HttpRequest → Except String PageDoc)
    (url firstUrl : String) (outbox : OutboxDoc) (page : PageDoc) (limit : Nat)
    (hurl : url ≠ "")
    (hnetO : netOutbox (outboxRequest url) = Except.ok outbox)
    (hfirst : outbox.first = some firstUrl) (hfu : firstUrl ≠ "")
    (hnetP : netPage (outboxRequest firstUrl) = Except.ok page) :
    fetchActorOutbox netOutbox netPage (some url) limit
      = { activities := (extractActivities page).take limit, warnings := [],
          requests := [outboxRequest url, outboxRequest firstUrl] } := by
  unfold fetchActorOutbox
  dsimp only
  rw [if_neg hurl, hnetO]
  dsimp only
  rw [hfirst]
  dsimp only
  rw [if_neg hfu, hnetP]

theorem fetchActorOutbox_outbox_error_eq
    (netOutbox : HttpRequest → Except String OutboxDoc)
    (netPage : HttpRequest → Except String PageDoc)
    (url : String) (limit : Nat) (e : String)
    (hurl : url ≠ "")
    (hnetO : netOutbox (outboxRequest url) = Except.error e) :
    fetchActorOutbox netOutbox netPage (some url) limit
      = { activities := [], warnings := ["Failed to fetch outbox: " ++ e],
          requests := [outboxRequest url] } := by
  unfold fetchActorOutbox
  dsimp only
  rw [if_neg hurl, hnetO]

theorem fetchActorOutbox_page_error_eq
    (netOutbox : HttpRequest → Except String OutboxDoc)
    (netPage : HttpRequest → Except String PageDoc)
    (url firstUrl : String) (outbox : OutboxDoc) (limit : Nat) (e : String)
    (hurl : url ≠ "")
    (hnetO : netOutbox (outboxRequest url) = Except.ok outbox)
    (hfirst : outbox.first = some firstUrl) (hfu : firstUrl ≠ "")
    (hnetP : netPage (outboxRequest firstUrl) = Except.error e) :
    fetchActorOutbox netOutbox netPage (some url) limit
      = { activities := [], warnings := ["Could not fetch outbox activities"],
          requests := [outboxRequest url, outboxRequest firstUrl] } := by
  unfold fetchActorOutbox
  dsimp only
  rw [if_neg hurl, hnetO]
  dsimp only
  rw [hfirst]
  dsimp only
  rw [if_neg hfu, hnetP]

/-! ### Absent outbox URL (claim C5) -/

/-- C5: for every limit and every network oracle, calling the outbox fetch
with an absent outbox URL yields an empty activity sequence and issues no
network request; the function returns normally (with a logged warning), it
does not error. -/
theorem fetchActorOutbox_absent_url
    (netOutbox : HttpRequest → Except String OutboxDoc)
    (netPage : HttpRequest → Except String PageDoc) (limit : Nat) :
    (fetchActorOutbox netOutbox netPage none limit).activities = []
      ∧ (fetchActorOutbox netOutbox netPage none limit).requests = []
      ∧ (fetchActorOutbox netOutbox netPage none limit).warnings
          = ["No outbox URL available"] :=
  ⟨rfl, rfl, rfl⟩

/-! ### Outbox extraction and truncation (claim C6) -/

/-- Four sample activities, newest first, as a server would order them. -/
def sampleActivities : List Activity :=
  [{ type := some "Create", published := some "2024-01-04T00:00:00Z" },
   { type := some "Announce", published := some "2024-01-03T00:00:00Z" },
   { type := some "Create", published := some "2024-01-02T00:00:00Z" },
   { type := some "Like", published := some "2024-01-01T00:00:00Z" }]

/-- A first outbox page carrying the sample activities in `orderedItems`. -/
def samplePage : PageDoc := { orderedItems := some sampleActivities, items := none }

/-- An outbox collection document pointing at a first page. -/
def sampleOutbox : OutboxDoc :=
  { totalItems := some 4, first := some "https://example.org/users/alice/outbox?page=1" }

/-- Oracle that always answers with a fixed outbox document. -/
def constOutboxNet (d : OutboxDoc) : HttpRequest → Except String OutboxDoc :=
  fun _ => Except.ok d

/-- Oracle that always answers with a fixed page document. -/
def constPageNet (p : PageDoc) : HttpRequest → Except String PageDoc :=
  fun _ => Except.ok p

/-- Oracle whose outbox endpoint always fails. -/
def errOutboxNet : HttpRequest → Except String OutboxDoc :=
  fun _ => Except.error "timeout of 10000ms exceeded"

/-- Oracle whose page endpoint always fails. -/
def errPageNet : HttpRequest → Except String PageDoc :=
  fun _ => Except.error "timeout of 10000ms exceeded"

/-- C6: on a fetched first page the activities are `orderedItems`, falling
back to `items` only when `orderedItems` is absent, and the displayed sequence
is the first `limit` items of the page in server order (`slice(0, limit)`);
when the page holds at least `limit` items the result has length exactly
`limit`. -/
theorem fetchActorOutbox_truncation
    (netOutbox : HttpRequest → Except String OutboxDoc)
    (netPage : HttpRequest → Except String PageDoc)
    (url firstUrl : String) (outbox : OutboxDoc) (page : PageDoc) (limit : Nat)
    (hurl : url ≠ "")
    (hnetO : netOutbox (outboxRequest url) = Except.ok outbox)
    (hfirst : outbox.first = some firstUrl) (hfu : firstUrl ≠ "")
    (hnetP : netPage (outboxRequest firstUrl) = Except.ok page) :
    (fetchActorOutbox netOutbox netPage (some url) limit).activities
        = (extractActivities page).take limit
      ∧ (∀ xs, page.orderedItems = some xs → extractActivities page = xs)
      ∧ (page.orderedItems = none → extractActivities page = page.items.getD [])
      ∧ (limit ≤ (extractActivities page).length →
          ((extractActivities page).take limit).length = limit) := by
  refine ⟨?_, ?_, ?_, ?_⟩
  · rw [fetchActorOutbox_success_eq netOutbox netPage url firstUrl outbox page limit
      hurl hnetO hfirst hfu hnetP]
  · intro xs h
    simp [extractActivities, h]
  · intro h
    simp [extractActivities, h]
  · intro h
    rw [List.length_take]
    exact Nat.min_eq_left h

/-- Witness for C6: a page of four activities with `limit = 3` yields exactly
the first three, in order. -/
theorem fetchActorOutbox_truncation_witness :
    3 ≤ (extractActivities samplePage).length
      ∧ (fetchActorOutbox (constOutboxNet sampleOutbox) (constPageNet samplePage)
            (some "https://example.org/users/alice/outbox") 3).activities
          = (extractActivities samplePage).take 3
      ∧ ((extractActivities samplePage).take 3).length = 3 := by
  have h := fetchActorOutbox_truncation (constOutboxNet sampleOutbox) (constPageNet samplePage)
    "https://example.org/users/alice/outbox" "https://example.org/users/alice/outbox?page=1"
    sampleOutbox samplePage 3 (by decide) rfl rfl (by decide) rfl
  exact ⟨by decide, h.1, h.2.2.2 (by decide)⟩

/-! ### Outbox failures are non-fatal (claim C7) -/

/-- The actor document used by witnesses. -/
def sampleActor : Actor :=
  { id := some "https://example.org/users/alice", type := some "Person",
    preferredUsername := some "alice",
    inbox := some "https://example.org/users/alice/inbox",
    outbox := some "https://example.org/users/alice/outbox" }

/-- A network where discovery and the actor fetch succeed but every outbox
and page request fails. -/
def outboxFailingNetwork : Network :=
  { webfinger := constWebFingerNet sampleWebFinger,
    actor := fun _ => Except.ok sampleActor,
    outbox := errOutboxNet,
    page := errPageNet }

/-- C7: a failure of the outbox fetch or of the first-page fetch never
propagates: the outcome is an empty activity list plus a warning (the function
returns normally), and in the surrounding `analyzeActorComplete` chain an
outbox-stage failure still ends in a `completed` outcome with zero
activities. -/
theorem fetchActorOutbox_failure_nonfatal
    (netOutbox : HttpRequest → Except String OutboxDoc)
    (netPage : HttpRequest → Except String PageDoc)
    (url firstUrl : String) (outbox : OutboxDoc) (limit : Nat) (e : String)
    (net : Network) (handle username domain : String) (doc : WebFingerData)
    (aUrl : String) (actor : Actor) (oUrl : String) :
    (url ≠ "" → netOutbox (outboxRequest url) = Except.error e →
        fetchActorOutbox netOutbox netPage (some url) limit
          = { activities := [], warnings := ["Failed to fetch outbox: " ++ e],
              requests := [outboxRequest url] })
      ∧ (url ≠ "" → netOutbox (outboxRequest url) = Except.ok outbox →
          outbox.first = some firstUrl → firstUrl ≠ "" →
          netPage (outboxRequest firstUrl) = Except.error e →
          fetchActorOutbox netOutbox netPage (some url) limit
            = { activities := [], warnings := ["Could not fetch outbox activities"],
                requests := [outboxRequest url, outboxRequest firstUrl] })
      ∧ (parseHandle handle = some (username, domain) →
          net.webfinger (webfingerRequest domain handle) = Except.ok doc →
          extractActorUrl doc = some aUrl → aUrl ≠ "" →
          net.actor (actorRequest aUrl) = Except.ok actor →
          actor.outbox = some oUrl → oUrl ≠ "" →
          net.outbox (outboxRequest oUrl) = Except.error e →
          (analyzeActorComplete net handle).1 = AnalysisOutcome.completed actor []) := by
  refine ⟨?_, ?_, ?_⟩
  · intro hurl hnetO
    exact fetchActorOutbox_outbox_error_eq netOutbox netPage url limit e hurl hnetO
  · intro hurl hnetO hfirst hfu hnetP
    exact fetchActorOutbox_page_error_eq netOutbox netPage url firstUrl outbox limit e
      hurl hnetO hfirst hfu hnetP
  · intro hparse hwf haurl haUrl hactor houtbox hoUrl hnetO
    have hdisc : discoverActor net.webfinger handle
        = (Except.ok { handle := handle, webfingerData := doc,
                       actorUrl := extractActorUrl doc },
           [webfingerRequest domain handle]) := by
      unfold discoverActor
      rw [hparse]
      dsimp only
      rw [hwf]
    have hfa : fetchActor net.actor aUrl = (Except.ok actor, [actorRequest aUrl]) := by
      unfold fetchActor
      dsimp only
      rw [hactor]
    have hob : fetchActorOutbox net.outbox net.page actor.outbox 3
        = { activities := [], warnings := ["Failed to fetch outbox: " ++ e],
            requests := [outboxRequest oUrl] } := by
      rw [houtbox]
      exact fetchActorOutbox_outbox_error_eq net.outbox net.page oUrl 3 e hoUrl hnetO
    unfold analyzeActorComplete
    rw [hdisc]
    dsimp only
    rw [haurl]
    dsimp only
    rw [if_neg haUrl, hfa]
    dsimp only
    rw [hob]

/-- Witness for C7: a failing outbox endpoint yields an empty list plus a
warning, and the complete analysis of `alice@example.org` over a network whose
outbox endpoint always fails still completes with zero activities. -/
theorem fetchActorOutbox_failure_nonfatal_witness :
    fetchActorOutbox errOutboxNet errPageNet
        (some "https://example.org/users/alice/outbox") 5
      = { activities := [],
          warnings := ["Failed to fetch outbox: timeout of 10000ms exceeded"],
          requests := [outboxRequest "https://example.org/users/alice/outbox"] }
      ∧ (analyzeActorComplete outboxFailingNetwork "alice@example.org").1
          = AnalysisOutcome.completed sampleActor [] := by
  have h := fetchActorOutbox_failure_nonfatal errOutboxNet errPageNet
    "https://example.org/users/alice/outbox" "" { totalItems := none, first := none } 5
    "timeout of 10000ms exceeded" outboxFailingNetwork "alice@example.org" "alice"
    "example.org" sampleWebFinger "https://example.org/users/alice" sampleActor
    "https://example.org/users/alice/outbox"
  exact ⟨h.1 (by decide) rfl,
         h.2.2 (by decide) rfl (by decide) (by decide) rfl rfl (by decide) rfl⟩

/-! ### Batch isolation (claim C8) -/

theorem runWebFingerTests_length (netw : HttpRequest → Except String WebFingerData)
    (accounts : List String) :
    (runWebFingerTests netw accounts).length = accounts.length := by
  induction accounts with
  | nil => rfl
  | cons x xs ih => simp [runWebFingerTests, ih]

theorem runActorTests_length (net : Network) (accounts : List String) :
    (runActorTests net accounts).length = accounts.length := by
  induction accounts with
  | nil => rfl
  | cons x xs ih => simp [runActorTests, ih]

/-- C8: both batch loops process every handle, and each handle's outcome is
exactly its own resolution, independent of the outcomes (including failures)
of all other handles: a failure aborts only that handle's remaining stages,
never the loop. -/
theorem batch_failure_isolation
    (netw : HttpRequest → Except String WebFingerData) (net : Network)
    (accounts : List String) (i : Nat) (a : String)
    (hi : accounts[i]? = some a) :
    (runWebFingerTests netw accounts).length = accounts.length
      ∧ (runActorTests net accounts).length = accounts.length
      ∧ (runWebFingerTests netw accounts)[i]? = some ((discoverActor netw a).1)
      ∧ (runActorTests net accounts)[i]? = some ((analyzeActorComplete net a).1) := by
  refine ⟨runWebFingerTests_length netw accounts, runActorTests_length net accounts, ?_, ?_⟩
  · induction accounts generalizing i with
    | nil => simp at hi
    | cons x xs ih =>
      cases i with
      | zero =>
        rw [List.getElem?_cons_zero] at hi
        cases hi
        simp only [runWebFingerTests, List.getElem?_cons_zero]
      | succ n =>
        rw [List.getElem?_cons_succ] at hi
        simp only [runWebFingerTests, List.getElem?_cons_succ]
        exact ih n hi
  · induction accounts generalizing i with
    | nil => simp at hi
    | cons x xs ih =>
      cases i with
      | zero =>
        rw [List.getElem?_cons_zero] at hi
        cases hi
        simp only [runActorTests, List.getElem?_cons_zero]
      | succ n =>
        rw [List.getElem?_cons_succ] at hi
        simp only [runActorTests, List.getElem?_cons_succ]
        exact ih n hi

/-- Witness for C8: in the batch `["bob", "alice@example.org"]` the first
handle fails validation, yet the second entry of each loop's outcome list is
exactly its own resolution. -/
theorem batch_failure_isolation_witness :
    (discoverActor (constWebFingerNet sampleWebFinger) "bob").1
        = Except.error DiscoverError.invalidHandleFormat
      ∧ (runWebFingerTests (constWebFingerNet sampleWebFinger)
            ["bob", "alice@example.org"])[1]?
          = some ((discoverActor (constWebFingerNet sampleWebFinger) "alice@example.org").1)
      ∧ (runActorTests outboxFailingNetwork ["bob", "alice@example.org"])[1]?
          = some ((analyzeActorComplete outboxFailingNetwork "alice@example.org").1) := by
  have h := batch_failure_isolation (constWebFingerNet sampleWebFinger) outboxFailingNetwork
    ["bob", "alice@example.org"] 1 "alice@example.org" rfl
  exact ⟨rfl, h.2.2.1, h.2.2.2⟩

/-! ### Fixed request parameters (claim C9) -/

/-- The invariant required of every request of the pipeline: `timeout: 10000`
(10 seconds), the fixed `User-Agent` client identification string, and no
header other than `Accept` and `User-Agent` — in particular no
`Authorization` and no HTTP-Signature header. -/
def goodRequest (r : HttpRequest) : Bool :=
  r.timeoutMs == 10000
    && r.headers.contains ("User-Agent", userAgentValue)
    && r.headers.all (fun kv => kv.1 == "Accept" || kv.1 == "User-Agent")

theorem goodRequest_webfinger (domain handle : String) :
    goodRequest (webfingerRequest domain handle) = true := rfl

theorem goodRequest_actor (url : String) : goodRequest (actorRequest url) = true := rfl

theorem goodRequest_outbox (url : String) : goodRequest (outboxRequest url) = true := rfl

/-- C9: every HTTP request issued by any operation of the pipeline — WebFinger
discovery, the actor fetch, the outbox fetch and the first-page fetch — has a
timeout of exactly 10000 ms, carries the fixed client identification string,
and carries no authentication or signature header. -/
theorem pipeline_fixed_request_params
    (netw : HttpRequest → Except String WebFingerData)
    (neta : HttpRequest → Except String Actor)
    (netOutbox : HttpRequest → Except String OutboxDoc)
    (netPage : HttpRequest → Except String PageDoc)
    (handle actorUrl : String) (outboxUrl : Option String) (limit : Nat) :
    ((discoverActor netw handle).2.all goodRequest = true)
      ∧ ((fetchActor neta actorUrl).2.all goodRequest = true)
      ∧ ((fetchActorOutbox netOutbox netPage outboxUrl limit).requests.all goodRequest
          = true) := by
  refine ⟨?_, ?_, ?_⟩
  · unfold discoverActor
    cases hp : parseHandle handle with
    | none => rfl
    | some ud =>
      obtain ⟨u, d⟩ := ud
      dsimp only
      cases netw (webfingerRequest d handle) <;> simp [goodRequest_webfinger]
  · unfold fetchActor
    dsimp only
    simp [goodRequest_actor]
  · unfold fetchActorOutbox
    cases outboxUrl with
    | none => rfl
    | some url =>
      dsimp only
      by_cases hu : url = ""
      · rw [if_pos hu]
        rfl
      · rw [if_neg hu]
        cases netOutbox (outboxRequest url) with
        | error e => simp [goodRequest_outbox]
        | ok outbox =>
          dsimp only
          cases outbox.first with
          | none => simp [goodRequest_outbox]
          | some fu =>
            dsimp only
            by_cases hfu : fu = ""
            · rw [if_pos hfu]
              simp [goodRequest_outbox]
            · rw [if_neg hfu]
              cases netPage (outboxRequest fu) <;> simp [goodRequest_outbox]

/-! ### Handles with two or more separators (claim C10) -/

/-- C10 counterexample: the handle `a@@b` contains two `@` characters, yet
`discoverActor` does fail handle validation: the second split component is
empty (falsy), so the call throws `InvalidHandleFormat` and issues no network
request — contrary to the claim that every handle with two or more `@` passes
validation. -/
theorem discoverActor_multiAt_empty_counterexample :
    "a@@b".data.count '@' = 2
      ∧ discoverActor (constWebFingerNet emptyWebFinger) "a@@b"
          = (Except.error DiscoverError.invalidHandleFormat, []) :=
  ⟨by decide, rfl⟩

/-- C10 (amended): a handle of the form `u@a@b` (two or more `@`) passes
validation whenever its first two split components are non-empty:
`parseHandle` takes the first two split components, the single WebFinger
request goes to the domain between the first and second `@`, the call never
fails with `InvalidHandleFormat`, and the request URL embeds the entire
original handle unencoded after `resource=acct:`.  (When the first or second
component is empty, as in `a@@b`, validation fails instead.) -/
theorem discoverActor_multiAt_behavior
    (net : HttpRequest → Except String WebFingerData) (u a b : List Char)
    (hu : u ≠ []) (ha : a ≠ []) (hcu : '@' ∉ u) (hca : '@' ∉ a) :
    parseHandle (String.mk (u ++ ('@' :: (a ++ '@' :: b))))
        = some (String.mk u, String.mk a)
      ∧ (discoverActor net (String.mk (u ++ ('@' :: (a ++ '@' :: b))))).2
          = [webfingerRequest (String.mk a) (String.mk (u ++ ('@' :: (a ++ '@' :: b))))]
      ∧ (discoverActor net (String.mk (u ++ ('@' :: (a ++ '@' :: b))))).1
          ≠ Except.error DiscoverError.invalidHandleFormat
      ∧ (webfingerRequest (String.mk a) (String.mk (u ++ ('@' :: (a ++ '@' :: b))))).url
          = "https://" ++ String.mk a ++ "/.well-known/webfinger?resource=acct:"
              ++ String.mk (u ++ ('@' :: (a ++ '@' :: b))) := by
  have hsplit : splitChar '@' (u ++ ('@' :: (a ++ '@' :: b))) = u :: a :: splitChar '@' b := by
    rw [splitChar_sep_append '@' u (a ++ '@' :: b) hcu,
        splitChar_sep_append '@' a b hca]
  have hparse : parseHandle (String.mk (u ++ ('@' :: (a ++ '@' :: b))))
      = some (String.mk u, String.mk a) := by
    unfold parseHandle
    rw [show (String.mk (u ++ ('@' :: (a ++ '@' :: b)))).data = u ++ ('@' :: (a ++ '@' :: b)) from rfl,
        hsplit]
    cases u with
    | nil => exact absurd rfl hu
    | cons x xs =>
      cases a with
      | nil => exact absurd rfl ha
      | cons y ys => simp [List.getD]
  refine ⟨hparse, ?_, ?_, rfl⟩
  · unfold discoverActor
    rw [hparse]
    dsimp only
    cases net (webfingerRequest (String.mk a) (String.mk (u ++ ('@' :: (a ++ '@' :: b))))) <;> rfl
  · unfold discoverActor
    rw [hparse]
    dsimp only
    cases net (webfingerRequest (String.mk a) (String.mk (u ++ ('@' :: (a ++ '@' :: b))))) with
    | error e => simp
    | ok d => simp

/-- Witness for C10 at the concrete handle `user@a@b`. -/
theorem discoverActor_multiAt_behavior_witness :
    parseHandle (String.mk (['u', 's', 'e', 'r'] ++ ('@' :: (['a'] ++ '@' :: ['b']))))
        = some (String.mk ['u', 's', 'e', 'r'], String.mk ['a'])
      ∧ (discoverActor (constWebFingerNet emptyWebFinger)
            (String.mk (['u', 's', 'e', 'r'] ++ ('@' :: (['a'] ++ '@' :: ['b']))))).1
          ≠ Except.error DiscoverError.invalidHandleFormat := by
  have h := discoverActor_multiAt_behavior (constWebFingerNet emptyWebFinger)
    ['u', 's', 'e', 'r'] ['a'] ['b'] (by decide) (by decide) (by decide) (by decide)
  exact ⟨h.1, h.2.2.1⟩

end ActivityPub
